import Mathlib

/-!
Verification development for the spark-hadoop-automation-in-cloud repository.

Shallow embedding of:
- the calendar-date arithmetic used via Python `datetime.date` / `timedelta`
  (proleptic Gregorian calendar, ordinal day numbers);
- `SparkHelper._get_src_paths` (src/helper/helper.py), parameterized by an
  abstract S3 listing backend;
- `SparkRunner._get_src_paths`, the travel-sequence fragment of
  `compute_step_one`, the reaction aggregate of `compute_step_two`, and the
  haversine distance of the nearest-city attribution (jobs/project_job.py,
  with float arithmetic modelled over the reals);
- the delivery loop of `TelegramNotifyer.notify_on_task_failure`
  (src/notifyer/notifyer.py) and `SparkSubmitter.submit_tags_job`
  (src/submitter.py), with the HTTP layer modelled as explicit
  request descriptors and response oracles.
-/

/-- Proleptic Gregorian calendar date, as handled by Python `datetime.date`. -/
structure Date where
  year : Nat
  month : Nat
  day : Nat
deriving DecidableEq, Repr

/-- Gregorian leap-year rule, as in Python `calendar.isleap`. -/
def isLeap (y : Nat) : Bool :=
  y % 4 = 0 && (y % 100 != 0 || y % 400 = 0)

/-- Number of days in a month of a given year. -/
def daysInMonth (y m : Nat) : Nat :=
  if m = 2 then (if isLeap y then 29 else 28)
  else if m = 4 || m = 6 || m = 9 || m = 11 then 30
  else 31

/-- Days in the year strictly before month `m`. -/
def daysBeforeMonth (y m : Nat) : Nat :=
  ((List.range (m - 1)).map (fun i => daysInMonth y (i + 1))).sum

/-- Ordinal day number of a date: `0001-01-01` is day 1, exactly as
Python `date.toordinal`. -/
def Date.toOrdinal (dt : Date) : Int :=
  let y : Int := (dt.year : Int) - 1
  365 * y + y / 4 - y / 100 + y / 400 + (daysBeforeMonth dt.year dt.month : Int) + (dt.day : Int)

/-- Inverse of `Date.toOrdinal` (civil-from-days algorithm), matching
Python `date.fromordinal` on the in-range ordinals (year 1 to 9999);
Python raises outside that range, which is outside the modelled domain. -/
def Date.fromOrdinal (n : Int) : Date :=
  let z := n + 305
  let era := z.ediv 146097
  let doe := z.emod 146097
  let yoe := (doe - doe.ediv 1460 + doe.ediv 36524 - doe.ediv 146096).ediv 365
  let y := yoe + era * 400
  let doy := doe - (365 * yoe + yoe.ediv 4 - yoe.ediv 100)
  let mp := (5 * doy + 2).ediv 153
  let d := doy - (153 * mp + 2).ediv 5 + 1
  let m := if mp < 10 then mp + 3 else mp - 9
  let year := if m ≤ 2 then y + 1 else y
  ⟨year.toNat, m.toNat, d.toNat⟩

/-- `date - timedelta(days=i)` on dates. -/
def Date.subDays (dt : Date) (i : Nat) : Date :=
  Date.fromOrdinal (dt.toOrdinal - (i : Int))

/-- Zero-pad a number to two digits, as in ISO date rendering. -/
def pad2 (n : Nat) : String :=
  if n < 10 then "0" ++ toString n else toString n

/-- Zero-pad a year to four digits, as in ISO date rendering. -/
def pad4 (n : Nat) : String :=
  if n < 10 then "000" ++ toString n
  else if n < 100 then "00" ++ toString n
  else if n < 1000 then "0" ++ toString n
  else toString n

/-- `str(date)`: the ISO `YYYY-MM-DD` rendering Python produces. -/
def Date.render (dt : Date) : String :=
  pad4 dt.year ++ "-" ++ pad2 dt.month ++ "-" ++ pad2 dt.day

/-- Split a character list at every occurrence of `sep`, keeping empty
pieces: the semantics of Python `str.split(sep)` for a one-character
separator (and of `String.splitOn`), written structurally. -/
def splitChar (sep : Char) : List Char → List (List Char)
  | [] => [[]]
  | c :: rest =>
    if c = sep then [] :: splitChar sep rest
    else
      match splitChar sep rest with
      | [] => [[c]]
      | g :: gs => (c :: g) :: gs

/-- `s.split(sep)` for a one-character separator. -/
def strSplit (sep : Char) (s : String) : List String :=
  (splitChar sep s.data).map (fun cs => String.mk cs)

/-- `sep.join(parts)`. -/
def strJoin (sep : String) : List String → String
  | [] => ""
  | [x] => x
  | x :: xs => x ++ sep ++ strJoin sep xs

/-- Parse a non-empty all-digit character list as a decimal number. -/
def charsToNat? (cs : List Char) : Option Nat :=
  if cs ≠ [] ∧ cs.all Char.isDigit
  then some (cs.foldl (fun a c => a * 10 + (c.toNat - 48)) 0)
  else none

/-- `datetime.strptime(s, "%Y-%m-%d").date()`: exactly four year digits,
one or two month and day digits, all fields in calendar range (Python's
`_strptime` regex for `%Y` is four digits; `%m`/`%d` allow one or two),
and the whole string consumed. Returns `none` where Python raises
`ValueError`. -/
def parseDate (s : String) : Option Date :=
  match splitChar '-' s.data with
  | [ys, ms, ds] =>
    match charsToNat? ys, charsToNat? ms, charsToNat? ds with
    | some y, some m, some d =>
      if ys.length = 4 ∧ (ms.length = 1 ∨ ms.length = 2) ∧ (ds.length = 1 ∨ ds.length = 2)
          ∧ 1 ≤ y ∧ 1 ≤ m ∧ m ≤ 12 ∧ 1 ≤ d ∧ d ≤ daysInMonth y m
      then some ⟨y, m, d⟩ else none
    | _, _, _ => none
  | _ => none

/-! ## Object-storage partition helper (`SparkHelper._get_src_paths`) -/

/-- The fields of `ArgsKeeper` consumed by `SparkHelper._get_src_paths`. -/
structure ArgsKeeper where
  date : String
  depth : Nat
  src_path : String
deriving DecidableEq, Repr

/-- Errors escaping `_get_src_paths`: the `ValueError` from `strptime`
(propagated uncaught) or `S3ServiceError` with its message. -/
inductive HelperError where
  | valueError
  | s3ServiceError (message : String)
deriving DecidableEq, Repr

/-- Abstract S3 listing backend: bucket and key prefix to either a
`ClientError` message or the full list of object keys under the prefix. -/
abbrev S3Backend := String → String → Except String (List String)

/-- `path.split(sep="/")[2]`: the bucket extracted from a path. -/
def bucketOf (path : String) : String :=
  (strSplit '/' path).getD 2 ""

/-- `"/".join(path.split(sep="/")[3:])`: the key prefix extracted from a path. -/
def objKeyOf (path : String) : String :=
  strJoin "/" ((strSplit '/' path).drop 3)

/-- The `Contents` of `s3.list_objects(Bucket=…, MaxKeys=5, Prefix=…)`:
at most five keys; S3 omits the field when no object matches, so the
"Contents in response.keys()" test is non-emptiness of this list. -/
def listObjectsContents (s3 : S3Backend) (bucket key : String) : Except String (List String) :=
  (s3 bucket key).map (fun l => l.take 5)

/-- The candidate paths generator of `_get_src_paths`: for `i` in
`range(depth)`, `src_path ++ "/event_type=" ++ et ++ "/date=" ++ str(date - i days)`. -/
def helperCandidatePaths (event_type : String) (keeper : ArgsKeeper) (date : Date) : List String :=
  (List.range keeper.depth).map
    (fun i => keeper.src_path ++ "/event_type=" ++ event_type ++ "/date=" ++ (date.subDays i).render)

/-- The existence-filtering loop of `_get_src_paths`: appends each path whose
listing has `Contents`; a `ClientError` aborts and is re-raised. -/
def helperCollectExisting (s3 : S3Backend) : List String → Except String (List String)
  | [] => .ok []
  | p :: rest =>
    match listObjectsContents s3 (bucketOf p) (objKeyOf p) with
    | .error e => .error e
    | .ok contents =>
      if contents.isEmpty then helperCollectExisting s3 rest
      else (helperCollectExisting s3 rest).map (fun tail => p :: tail)

/-- `SparkHelper._get_src_paths` (src/helper/helper.py lines 65-135).
The Python `set(existing_paths)` is modelled as the collected list itself
(its elements are pairwise distinct since the dates differ). -/
def helper_get_src_paths (s3 : S3Backend) (event_type : String) (keeper : ArgsKeeper) :
    Except HelperError (List String) :=
  match parseDate keeper.date with
  | none => .error .valueError
  | some date =>
    match helperCollectExisting s3 (helperCandidatePaths event_type keeper date) with
    | .error e => .error (.s3ServiceError e)
    | .ok existing =>
      if existing.isEmpty then .error (.s3ServiceError "No data on S3 for given arguments")
      else .ok existing

instance {ε α : Type} [DecidableEq ε] [DecidableEq α] : DecidableEq (Except ε α)
  | .error a, .error b =>
    if h : a = b then .isTrue (by rw [h]) else .isFalse (fun hh => by cases hh; exact h rfl)
  | .error _, .ok _ => .isFalse (fun hh => by cases hh)
  | .ok _, .error _ => .isFalse (fun hh => by cases hh)
  | .ok a, .ok b =>
    if h : a = b then .isTrue (by rw [h]) else .isFalse (fun hh => by cases hh; exact h rfl)

/-- A fault-free S3 backend induced by a pure object listing. -/
def pureS3 (store : String → String → List String) : S3Backend :=
  fun bucket key => .ok (store bucket key)

/-- Existence test of a path against a pure listing backend. -/
def pathExists (store : String → String → List String) (p : String) : Bool :=
  !(store (bucketOf p) (objKeyOf p)).isEmpty

/-! ## Batch compute job (`SparkRunner`, jobs/project_job.py) -/

/-- `ArgsHolder` (jobs/project_job.py lines 54-57). -/
structure ArgsHolder where
  date : String
  depth : Nat
  src_path : String
deriving DecidableEq, Repr

/-- `SparkRunner._get_src_paths` (jobs/project_job.py lines 67-81): a plain
list comprehension over `range(depth)` with no `event_type` segment and no
storage lookup; `none` models the propagated `strptime` `ValueError`. -/
def runner_get_src_paths (holder : ArgsHolder) : Option (List String) :=
  (parseDate holder.date).map (fun date =>
    (List.range holder.depth).map
      (fun i => holder.src_path ++ "/date=" ++ (date.subDays i).render))

/-- The `visit_flg` expression of `compute_step_one` (lines 269-276):
`(city_name != prev_city) | isnull(prev_city)` with Spark null semantics —
a null `prev_city` (first row of the user window) makes the flag 1. -/
def visit_flg (city_name : String) (prev_city : Option String) : Bool :=
  match prev_city with
  | none => true
  | some p => city_name != p

/-- `lag("city_name")` over the user window ordered by `msg_ts` ascending:
pair each city with its predecessor (none for the first row). The input
list is the user's cities already in `msg_ts`-ascending window order. -/
def lagCity (cities : List String) : List (String × Option String) :=
  cities.zip ((none : Option String) :: cities.map some)

/-- `travel_array` of `compute_step_one` (lines 262-283): the rows whose
`visit_flg` is 1, collected in order. -/
def travel_array (cities : List String) : List String :=
  ((lagCity cities).filter (fun r => visit_flg r.1 r.2)).map Prod.fst

/-- `travel_count = size(travel_array)`. -/
def travel_count (cities : List String) : Nat :=
  (travel_array cities).length

/-- A grouping key of the stage-two reaction aggregate: `month`, `week`,
`zone_id` (the latter nullable through the left join with user zones). -/
abbrev RKey := Nat × Nat × Option Nat

/-- `week_reaction`: `count("message_id")` of the `(month, week, zone_id)`
group — the number of input rows carrying that key. -/
def week_reaction (rows : List RKey) (k : RKey) : Nat :=
  rows.count k

/-- `month_reaction`: `sum("week_reaction")` over `Window().partitionBy("month")`
on the grouped dataframe — the window has no ordering, so it sums
`week_reaction` over every group sharing the month (lines 360-365). -/
def month_reaction (rows : List RKey) (m : Nat) : Nat :=
  (((rows.dedup).filter (fun k => k.1 == m)).map (fun k => rows.count k)).sum

/-- The grouped reaction aggregate of `compute_step_two` (lines 358-365):
one row per distinct `(month, week, zone_id)` key with its `week_reaction`
count and the month-window `month_reaction` sum. -/
def reaction_aggregate (rows : List RKey) : List (RKey × Nat × Nat) :=
  (rows.dedup).map (fun k => (k, week_reaction rows k, month_reaction rows k.1))

/-- `f.radians`: degrees to radians. -/
noncomputable def radians (x : ℝ) : ℝ := x * Real.pi / 180

/-- The haversine distance of the nearest-city attribution
(`SparkRunner._get_event_city`, lines 149-165, identically inlined in
`compute_step_one`): Spark double-precision float arithmetic is modelled
over the reals. -/
noncomputable def haversine_distance (msg_lat msg_lon city_lat city_lon : ℝ) : ℝ :=
  let dlat := radians msg_lat - radians city_lat
  let dlon := radians msg_lon - radians city_lon
  let distance_a :=
    Real.sin (dlat / 2) ^ 2 +
      Real.cos (radians city_lat) * Real.cos (radians msg_lat) * Real.sin (dlon / 2) ^ 2
  let distance_b := Real.arcsin (Real.sqrt distance_a)
  2 * 6371 * distance_b

/-! ## HTTP layer shared by the notifyer and the submitter -/

/-- HTTP method of an outbound request. -/
inductive HttpMethod where
  | GET
  | POST
deriving DecidableEq, Repr

/-- Descriptor of one outbound `requests` call: method, URL, and the
`timeout` argument as passed (none when the call site passes no timeout,
in which case `requests` blocks without bound). -/
structure HttpRequest where
  method : HttpMethod
  url : String
  timeout : Option Nat
deriving DecidableEq, Repr

/-- Transport-level exceptions caught by both clients:
`ConnectionError`, `Timeout`, `InvalidSchema` raised before any response. -/
inductive ConnExn where
  | connectionError
  | timeout
  | invalidSchema
deriving DecidableEq, Repr

/-! ## Failure notifier (`TelegramNotifyer`, src/notifyer/notifyer.py) -/

/-- Modelled from the spec: `BaseRequester` (src/base, not in the sources at
hand) stores the retry/timeout configuration handed to it by its concrete
clients — a maximum retry count (default 10), a fixed delay between retries
in seconds (default 60), and a total request timeout in seconds
(default 120). -/
structure BaseRequester where
  _MAX_RETRIES : Nat
  _DELAY : Nat
  _SESSION_TIMEOUT : Nat
deriving DecidableEq, Repr

/-- `TelegramNotifyer.__init__` defaults (lines 28-39):
`max_retries=10`, `retry_delay=60`, `session_timeout=60*2`. -/
def telegramNotifyerDefault : BaseRequester := ⟨10, 60, 60 * 2⟩

/-- The `requests.post(url=URL)` call of `notify_on_task_failure`
(lines 107 and 116): method POST, the Bot API URL with `chat_id` and `text`
as query parameters, and no `timeout` argument. -/
def notifyer_send_request (token chat_id text : String) : HttpRequest :=
  ⟨.POST,
    "https://api.telegram.org/bot" ++ token ++ "/sendMessage?chat_id=" ++ chat_id
      ++ "&text=" ++ text,
    none⟩

/-- One Telegram response: HTTP status and the decoded `"ok"` field of the
JSON body (`none` when the key is absent). -/
structure TgResponse where
  status : Nat
  body_ok : Option Bool
deriving DecidableEq, Repr

/-- Outcome classification of one delivery attempt (lines 114-166): a caught
transport exception retries; `raise_for_status` turns a 4xx/5xx status into a
caught `HTTPError` (retry); a 200 status with body `ok` true succeeds; a 200
status with `ok` absent or false retries; any other status retries. -/
inductive StepRes where
  | success
  | retry
deriving DecidableEq, Repr

/-- Classify one attempt of the delivery loop. The `"ok" in response.keys()
and response["ok"]` test is `body_ok = some true`. -/
def attemptStep (r : Except ConnExn TgResponse) : StepRes :=
  match r with
  | .error _ => .retry
  | .ok resp =>
    if 400 ≤ resp.status then .retry
    else if resp.status = 200 then
      (if resp.body_ok = some true then .success else .retry)
    else .retry

/-- Terminal state of the delivery loop: message sent, or
`EnableToSendMessageError` raised (spec name: NotificationDeliveryError),
or fuel exhausted (cannot occur when fuel covers the retry budget). -/
inductive NotifyOutcome where
  | sent
  | deliveryError
  | fuelOut
deriving DecidableEq, Repr

/-- The `while not _OK` delivery loop of `notify_on_task_failure`
(lines 111-166), with `_TRY` starting at 1: every failing branch raises when
`_TRY == _MAX_RETRIES` and otherwise sleeps `_DELAY` seconds and retries with
`_TRY + 1`. Returns the outcome, the number of send attempts made, and the
total seconds slept. `resp n` is the result of the `n`-th `requests.post`. -/
def tg_send_loop (resp : Nat → Except ConnExn TgResponse) (maxRetries delay : Nat) :
    Nat → Nat → NotifyOutcome × Nat × Nat
  | _, 0 => (.fuelOut, 0, 0)
  | tryN, fuel + 1 =>
    match attemptStep (resp tryN) with
    | .success => (.sent, 1, 0)
    | .retry =>
      if tryN = maxRetries then (.deliveryError, 1, 0)
      else
        match tg_send_loop resp maxRetries delay (tryN + 1) fuel with
        | (o, a, s) => (o, a + 1, s + delay)

/-- The delivery phase of `notify_on_task_failure` for a notifyer configured
by `cfg`: the loop entered at `_TRY = 1` with fuel covering the retry budget. -/
def notify_delivery (resp : Nat → Except ConnExn TgResponse) (cfg : BaseRequester) :
    NotifyOutcome × Nat × Nat :=
  tg_send_loop resp cfg._MAX_RETRIES cfg._DELAY 1 cfg._MAX_RETRIES

/-! ## Job submission client (`SparkSubmitter`, src/submitter.py) -/

/-- One response of the remote execution API: HTTP status and the decoded
`returncode` field (`none` when absent). -/
structure ApiResponse where
  status : Nat
  returncode : Option Int
deriving DecidableEq, Repr

/-- Process-level result of `submit_tags_job`: normal return or
`sys.exit(code)`. -/
inductive SubmitOutcome where
  | normalReturn
  | sysExit (code : Nat)
deriving DecidableEq, Repr

/-- The `requests.post` call of `submit_tags_job` (lines 50-54): POST to
`{base_url}/submit_tags_job` with `timeout=self.session_timeout`. -/
def submitter_request (api_base_url : String) (session_timeout : Nat) : HttpRequest :=
  ⟨.POST, api_base_url ++ "/submit_tags_job", some session_timeout⟩

/-- `SparkSubmitter.__init__` default `session_timeout = 60 * 60`. -/
def submitterDefaultTimeout : Nat := 60 * 60

/-- `SparkSubmitter.submit_tags_job` (src/submitter.py lines 37-78), from the
single `requests.post` outcome to the process-level result. The second
component records whether `response.json()` was invoked. A caught transport
exception exits with status 1 before any body parse; `raise_for_status`
turns a 4xx/5xx status into such an exit; a 200 status parses the body and
maps `returncode == 0` to a normal return, anything else to `sys.exit(1)`;
a non-200 non-error status falls through and returns normally. There is no
loop: exactly one request is made per call. -/
def submit_tags_job (r : Except ConnExn ApiResponse) : SubmitOutcome × Bool :=
  match r with
  | .error _ => (.sysExit 1, false)
  | .ok resp =>
    if 400 ≤ resp.status then (.sysExit 1, false)
    else if resp.status = 200 then
      (if resp.returncode = some 0 then (.normalReturn, true) else (.sysExit 1, true))
    else (.normalReturn, false)

/-! ## Theorems -/

theorem take_five_isEmpty (l : List String) : (l.take 5).isEmpty = l.isEmpty := by
  cases l <;> rfl

theorem helperCollect_pure (store : String → String → List String) (ps : List String) :
    helperCollectExisting (pureS3 store) ps = .ok (ps.filter (pathExists store)) := by
  induction ps with
  | nil => rfl
  | cons p rest ih =>
    simp only [helperCollectExisting, listObjectsContents, pureS3, Except.map,
      List.filter_cons, ih, pathExists, take_five_isEmpty]
    rcases Bool.eq_false_or_eq_true ((store (bucketOf p) (objKeyOf p)).isEmpty) with h | h <;>
      simp [h]

/-- Claim C1: for a job argument bundle whose date parses and whose depth is
`N ≥ 1`, and any event-type selector, `SparkHelper._get_src_paths` queries
exactly the `N` candidate paths `src_path ++ "/event_type=" ++ et ++ "/date="
++ str(D - i days)` for `i = 0 .. N-1` (listing up to 5 objects under
bucket = third `/`-separated segment, key prefix = remainder) and returns
exactly those candidates whose listing is non-empty. -/
theorem helper_get_src_paths_returns_existing
    (store : String → String → List String) (et : String) (k : ArgsKeeper) (D : Date)
    (hD : parseDate k.date = some D) (hdep : 1 ≤ k.depth)
    (hne : (helperCandidatePaths et k D).filter (pathExists store) ≠ []) :
    helper_get_src_paths (pureS3 store) et k =
      .ok ((helperCandidatePaths et k D).filter (pathExists store))
    ∧ (helperCandidatePaths et k D).length = k.depth
    ∧ ∀ i < k.depth, (helperCandidatePaths et k D).getD i "" =
        k.src_path ++ "/event_type=" ++ et ++ "/date=" ++ (D.subDays i).render := by
  refine ⟨?_, ?_, ?_⟩
  · simp only [helper_get_src_paths, hD, helperCollect_pure]
    have : ((helperCandidatePaths et k D).filter (pathExists store)).isEmpty = false := by
      cases hcase : (helperCandidatePaths et k D).filter (pathExists store) with
      | nil => exact absurd hcase hne
      | cons a l => rfl
    simp [this]
  · simp [helperCandidatePaths]
  · intro i hi
    simp [helperCandidatePaths, List.getD, List.getElem?_map, List.getElem?_range, hi]

theorem helper_get_src_paths_returns_existing_witness :
    helper_get_src_paths
        (pureS3 (fun _ key =>
          if key = "d/event_type=message/date=2022-03-12"
              ∨ key = "d/event_type=message/date=2022-03-10" then ["o"] else []))
        "message" ⟨"2022-03-12", 5, "s3a://b/d"⟩ =
      .ok ((helperCandidatePaths "message" ⟨"2022-03-12", 5, "s3a://b/d"⟩ ⟨2022, 3, 12⟩).filter
        (pathExists (fun _ key =>
          if key = "d/event_type=message/date=2022-03-12"
              ∨ key = "d/event_type=message/date=2022-03-10" then ["o"] else []))) :=
  (helper_get_src_paths_returns_existing
    (fun _ key =>
      if key = "d/event_type=message/date=2022-03-12"
          ∨ key = "d/event_type=message/date=2022-03-10" then ["o"] else [])
    "message" ⟨"2022-03-12", 5, "s3a://b/d"⟩ ⟨2022, 3, 12⟩
    (by decide) (by decide) (by decide)).1

/-- Claim C2: when no candidate partition path exists in the object store,
`SparkHelper._get_src_paths` raises `S3ServiceError` ("No data on S3 for
given arguments", the spec's ObjectStorageError) rather than returning; and
in general a normal return never carries an empty collection. -/
theorem helper_get_src_paths_empty_raises
    (store : String → String → List String) (et : String) (k : ArgsKeeper) (D : Date)
    (hD : parseDate k.date = some D)
    (hall : ∀ p ∈ helperCandidatePaths et k D, store (bucketOf p) (objKeyOf p) = []) :
    helper_get_src_paths (pureS3 store) et k =
      .error (.s3ServiceError "No data on S3 for given arguments")
    ∧ ∀ (s3 : S3Backend) (et2 : String) (k2 : ArgsKeeper) (xs : List String),
        helper_get_src_paths s3 et2 k2 = .ok xs → xs ≠ [] := by
  constructor
  · have hfil : (helperCandidatePaths et k D).filter (pathExists store) = [] := by
      rw [List.filter_eq_nil_iff]
      intro p hp
      simp [pathExists, hall p hp]
    simp [helper_get_src_paths, hD, helperCollect_pure, hfil]
  · intro s3 et2 k2 xs hok
    unfold helper_get_src_paths at hok
    split at hok
    · cases hok
    · split at hok
      · cases hok
      · split at hok
        · cases hok
        · rename_i hemp
          cases hok
          intro hnil
          exact hemp (by simp [hnil])

theorem helper_get_src_paths_empty_raises_witness :
    helper_get_src_paths (pureS3 (fun _ _ => [])) "message" ⟨"2022-03-12", 3, "s3a://b/d"⟩ =
      .error (.s3ServiceError "No data on S3 for given arguments") :=
  (helper_get_src_paths_empty_raises (fun _ _ => []) "message"
    ⟨"2022-03-12", 3, "s3a://b/d"⟩ ⟨2022, 3, 12⟩ (by decide) (by decide)).1

/-- Claim C10: for an argument holder whose date parses and whose depth is
`N ≥ 1`, `SparkRunner._get_src_paths` returns (never raises) the list of
exactly `N` paths `src_path ++ "/date=" ++ str(D - i days)` for
`i = 0 .. N-1` in that order, with no `event_type` segment and no
object-storage existence check (the function consults no store at all). -/
theorem runner_get_src_paths_enumerates (holder : ArgsHolder) (D : Date)
    (hD : parseDate holder.date = some D) (hdep : 1 ≤ holder.depth) :
    runner_get_src_paths holder =
      some ((List.range holder.depth).map
        (fun i => holder.src_path ++ "/date=" ++ (D.subDays i).render))
    ∧ ∀ ps, runner_get_src_paths holder = some ps →
        ps.length = holder.depth ∧
        ∀ i < holder.depth, ps.getD i "" =
          holder.src_path ++ "/date=" ++ (D.subDays i).render := by
  have h1 : runner_get_src_paths holder =
      some ((List.range holder.depth).map
        (fun i => holder.src_path ++ "/date=" ++ (D.subDays i).render)) := by
    simp [runner_get_src_paths, hD]
  refine ⟨h1, ?_⟩
  intro ps hps
  rw [h1] at hps
  cases hps
  constructor
  · simp
  · intro i hi
    simp [List.getD, List.getElem?_map, List.getElem?_range, hi]

theorem runner_get_src_paths_enumerates_witness :
    runner_get_src_paths ⟨"2022-03-12", 3, "s3a://b/d"⟩ =
      some ((List.range 3).map
        (fun i => "s3a://b/d" ++ "/date=" ++ ((⟨2022, 3, 12⟩ : Date).subDays i).render)) :=
  (runner_get_src_paths_enumerates ⟨"2022-03-12", 3, "s3a://b/d"⟩ ⟨2022, 3, 12⟩
    (by decide) (by decide)).1

/-- Claim C3: for a user whose messages in `msg_ts`-ascending order carry the
city sequence `[A, A, B, B, A]` with `A ≠ B`, the travel-sequence fragment of
`compute_step_one` yields `travel_array = [A, B, A]` and `travel_count = 3`:
a visit boundary falls exactly on the first row (null `prev_city`) and on
every row whose city differs from its predecessor, so consecutive duplicates
collapse and a return to an earlier city counts again. -/
theorem travel_sequence_collapses (A B : String) (h : A ≠ B) :
    travel_array [A, A, B, B, A] = [A, B, A] ∧ travel_count [A, A, B, B, A] = 3 := by
  have hAB : (A != B) = true := bne_iff_ne.mpr h
  have hBA : (B != A) = true := bne_iff_ne.mpr (Ne.symm h)
  constructor
  · simp [travel_array, lagCity, visit_flg, List.filter, hAB, hBA]
  · simp [travel_count, travel_array, lagCity, visit_flg, List.filter, hAB, hBA]

theorem travel_sequence_collapses_witness :
    travel_array ["A", "A", "B", "B", "A"] = ["A", "B", "A"] ∧
    travel_count ["A", "A", "B", "B", "A"] = 3 :=
  travel_sequence_collapses "A" "B" (by decide)

theorem list_filter_of_map {α β : Type} (f : α → β) (p : β → Bool) (l : List α) :
    (l.map f).filter p = (l.filter (fun a => p (f a))).map f := by
  induction l with
  | nil => rfl
  | cons a t ih =>
    simp only [List.map_cons, List.filter_cons, ih]
    rcases Bool.eq_false_or_eq_true (p (f a)) with hb | hb <;> simp [hb]

/-- Claim C4: in the stage-two reaction aggregate, every output row's
`month_reaction` equals the sum of `week_reaction` over all rows of the
aggregate sharing that row's month (the month window spans every
`(week, zone_id)` group of the month, not a per-zone sum). -/
theorem month_reaction_sums_over_month (rows : List RKey) (r : RKey × Nat × Nat)
    (hr : r ∈ reaction_aggregate rows) :
    r.2.2 = (((reaction_aggregate rows).filter (fun g => g.1.1 == r.1.1)).map
      (fun g => g.2.1)).sum := by
  obtain ⟨k, hk, rfl⟩ := List.mem_map.mp hr
  show month_reaction rows k.1 = _
  rw [reaction_aggregate,
    list_filter_of_map (fun k => (k, week_reaction rows k, month_reaction rows k.1))
      (fun g => g.1.1 == k.1) rows.dedup,
    List.map_map]
  rfl

theorem month_reaction_sums_over_month_witness :
    ((3, 10, some 1), 3, 8) ∈
      reaction_aggregate [(3, 10, some 1), (3, 10, some 1), (3, 10, some 1),
        (3, 11, some 2), (3, 11, some 2), (3, 11, some 2), (3, 11, some 2), (3, 11, some 2)] ∧
    (((3, 10, some 1), 3, 8) : RKey × Nat × Nat).2.2 =
      (((reaction_aggregate [(3, 10, some 1), (3, 10, some 1), (3, 10, some 1),
        (3, 11, some 2), (3, 11, some 2), (3, 11, some 2), (3, 11, some 2),
        (3, 11, some 2)]).filter (fun g => g.1.1 == 3)).map (fun g => g.2.1)).sum :=
  ⟨by decide,
    month_reaction_sums_over_month
      [(3, 10, some 1), (3, 10, some 1), (3, 10, some 1),
        (3, 11, some 2), (3, 11, some 2), (3, 11, some 2), (3, 11, some 2), (3, 11, some 2)]
      ((3, 10, some 1), 3, 8) (by decide)⟩

/-- Claim C5: the distance of the nearest-city attribution is the haversine
great-circle distance `6371 * 2 * asin(sqrt(sin(dlat/2)^2 +
cos(city_lat)*cos(msg_lat)*sin(dlon/2)^2))` in kilometers (floats modelled
over the reals); identical coordinates give distance 0, and coordinates
(0°,0°) against (0°,90°) give `6371 * (pi/2)`. -/
theorem haversine_distance_spec :
    (∀ mlat mlon clat clon : ℝ, haversine_distance mlat mlon clat clon =
      6371 * 2 * Real.arcsin (Real.sqrt
        (Real.sin ((radians mlat - radians clat) / 2) ^ 2 +
          Real.cos (radians clat) * Real.cos (radians mlat) *
            Real.sin ((radians mlon - radians clon) / 2) ^ 2)))
    ∧ (∀ lat lon : ℝ, haversine_distance lat lon lat lon = 0)
    ∧ haversine_distance 0 0 0 90 = 6371 * (Real.pi / 2) := by
  refine ⟨?_, ?_, ?_⟩
  · intro mlat mlon clat clon
    simp only [haversine_distance]
    ring
  · intro lat lon
    simp [haversine_distance, sub_self, Real.sin_zero, Real.sqrt_zero, Real.arcsin_zero]
  · have e1 : Real.sin ((radians 0 - radians 0) / 2) = 0 := by simp [radians]
    have e2 : Real.cos (radians 0) = 1 := by simp [radians]
    have e3 : Real.sin ((radians 0 - radians 90) / 2) ^ 2 = (Real.sqrt 2 / 2) ^ 2 := by
      have harg : (radians 0 - radians 90) / 2 = -(Real.pi / 4) := by
        unfold radians; ring
      rw [harg, Real.sin_neg, neg_sq, Real.sin_pi_div_four]
    simp only [haversine_distance, e1, e2, e3]
    have e4 : (0 : ℝ) ^ 2 + 1 * 1 * (Real.sqrt 2 / 2) ^ 2 = (Real.sqrt 2 / 2) ^ 2 := by ring
    rw [e4, Real.sqrt_sq (by positivity)]
    rw [← Real.sin_pi_div_four,
      Real.arcsin_sin (by linarith [Real.pi_pos]) (by linarith [Real.pi_pos])]
    ring

theorem tg_send_loop_all_retry (resp : Nat → Except ConnExn TgResponse) (maxR delay : Nat)
    (hall : ∀ n, attemptStep (resp n) = .retry) :
    ∀ fuel tryN, 1 ≤ fuel → tryN + fuel = maxR + 1 →
      tg_send_loop resp maxR delay tryN fuel =
        (.deliveryError, fuel, (fuel - 1) * delay) := by
  intro fuel
  induction fuel with
  | zero => intro tryN hf _; exact absurd hf (by omega)
  | succ k ih =>
    intro tryN _ htry
    rw [tg_send_loop, hall tryN]
    by_cases hmax : tryN = maxR
    · have hk : k = 0 := by omega
      subst hk
      rw [if_pos hmax]
      simp
    · rw [if_neg hmax]
      have hk1 : 1 ≤ k := by omega
      rw [ih (tryN + 1) hk1 (by omega)]
      have hmul : (k - 1) * delay + delay = k * delay := by
        cases k with
        | zero => exact absurd hk1 (by omega)
        | succ k2 => simp [Nat.succ_sub_one]; ring
      simp [hmul]

/-- Claim C6: with the default configuration (`max_retries = 10`,
`retry_delay = 60`), if every delivery attempt fails (e.g. a non-200 status
every time), `notify_on_task_failure` makes exactly 10 send attempts,
sleeping the fixed 60-second delay between successive attempts (9 sleeps,
540 seconds total), and after the final failed attempt raises
`EnableToSendMessageError` (the spec's NotificationDeliveryError) — no
normal return and no unbounded looping. -/
theorem notifyer_retry_exhaustion (resp : Nat → Except ConnExn TgResponse)
    (hall : ∀ n, attemptStep (resp n) = .retry) :
    notify_delivery resp telegramNotifyerDefault =
      (.deliveryError, telegramNotifyerDefault._MAX_RETRIES,
        (telegramNotifyerDefault._MAX_RETRIES - 1) * telegramNotifyerDefault._DELAY) :=
  tg_send_loop_all_retry resp telegramNotifyerDefault._MAX_RETRIES
    telegramNotifyerDefault._DELAY hall telegramNotifyerDefault._MAX_RETRIES 1
    (by decide) (by decide)

theorem notifyer_retry_exhaustion_witness :
    notify_delivery (fun _ => .ok ⟨404, none⟩) telegramNotifyerDefault =
      (.deliveryError, 10, 9 * 60) :=
  notifyer_retry_exhaustion (fun _ => .ok ⟨404, none⟩)
    (by intro n; show attemptStep (Except.ok ⟨404, none⟩) = StepRes.retry; decide)

/-- Claim C7: `submit_tags_job` maps the remote response as follows — HTTP
200 with `returncode` 0 returns normally; HTTP 200 with any other
`returncode` (different value or absent field) exits the process with
status 1; any transport fault (HTTP error status caught via
`raise_for_status`, invalid scheme, connection error, timeout) exits with
status 1 without parsing a body. The embedding makes exactly one request
per call: there is no retry loop in the component. -/
theorem submit_tags_job_response_mapping :
    (∀ resp : ApiResponse, resp.status = 200 → resp.returncode = some 0 →
      submit_tags_job (.ok resp) = (.normalReturn, true))
    ∧ (∀ resp : ApiResponse, resp.status = 200 → resp.returncode ≠ some 0 →
      submit_tags_job (.ok resp) = (.sysExit 1, true))
    ∧ (∀ e : ConnExn, submit_tags_job (.error e) = (.sysExit 1, false))
    ∧ (∀ resp : ApiResponse, 400 ≤ resp.status →
      submit_tags_job (.ok resp) = (.sysExit 1, false)) := by
  refine ⟨?_, ?_, ?_, ?_⟩
  · intro resp h0 hrc
    simp [submit_tags_job, h0, hrc]
  · intro resp h0 hrc
    simp [submit_tags_job, h0, hrc]
  · intro e
    rfl
  · intro resp h4
    simp [submit_tags_job, h4]

theorem submit_tags_job_response_mapping_witness :
    submit_tags_job (.ok ⟨200, some 0⟩) = (.normalReturn, true)
    ∧ submit_tags_job (.ok ⟨200, some 1⟩) = (.sysExit 1, true)
    ∧ submit_tags_job (.error .timeout) = (.sysExit 1, false)
    ∧ submit_tags_job (.ok ⟨404, none⟩) = (.sysExit 1, false) :=
  ⟨submit_tags_job_response_mapping.1 ⟨200, some 0⟩ rfl rfl,
    submit_tags_job_response_mapping.2.1 ⟨200, some 1⟩ rfl (by decide),
    submit_tags_job_response_mapping.2.2.1 .timeout,
    submit_tags_job_response_mapping.2.2.2 ⟨404, none⟩ (by decide)⟩

/-- Claim C8 (refuted — the code is the slip): the chat-bot delivery request
of `notify_on_task_failure` is issued as `requests.post(url=URL)` with NO
`timeout` argument at all, although the notifyer is constructed with a
`session_timeout` configuration (default 120 seconds); so that request can
block without bound. The submitter's request, by contrast, does carry its
configured timeout. -/
theorem notifyer_request_missing_timeout :
    (∀ token chat_id text : String,
      (notifyer_send_request token chat_id text).timeout = none)
    ∧ (∀ (base : String) (t : Nat), (submitter_request base t).timeout = some t) :=
  ⟨fun _ _ _ => rfl, fun _ _ => rfl⟩

theorem notifyer_delivery_not_get :
    (notifyer_send_request "token" "chat" "msg").method ≠ HttpMethod.GET := by
  decide

/-- Claim C9 as amended: the failure notifier delivers the alert by issuing
an HTTP POST request (not GET — `requests.post(url=URL)`, line 116) to
`https://api.telegram.org/bot` ++ token ++ `/sendMessage` with `chat_id`
and `text` supplied as query parameters, and treats the delivery as
successful exactly when the response has status 200 and its JSON body
carries `"ok": true`. -/
theorem notifyer_delivery_post_and_success :
    (∀ token chat_id text : String,
      (notifyer_send_request token chat_id text).method = HttpMethod.POST ∧
      (notifyer_send_request token chat_id text).url =
        "https://api.telegram.org/bot" ++ token ++ "/sendMessage?chat_id=" ++ chat_id
          ++ "&text=" ++ text)
    ∧ (∀ r : Except ConnExn TgResponse,
        attemptStep r = StepRes.success ↔
          ∃ resp : TgResponse, r = .ok resp ∧ resp.status = 200 ∧
            resp.body_ok = some true) := by
  constructor
  · intro token chat_id text
    exact ⟨rfl, rfl⟩
  · intro r
    constructor
    · intro h
      cases r with
      | error e => simp [attemptStep] at h
      | ok resp =>
        by_cases h4 : 400 ≤ resp.status
        · simp [attemptStep, h4] at h
        · by_cases h2 : resp.status = 200
          · by_cases hok : resp.body_ok = some true
            · exact ⟨resp, rfl, h2, hok⟩
            · simp [attemptStep, h4, h2, hok] at h
          · simp [attemptStep, h4, h2] at h
    · rintro ⟨resp, rfl, h2, hok⟩
      simp [attemptStep, h2, hok]
